import Mathlib

/-!
Verification of the IOMB-Data conversion scripts.

We shallowly embed the grid-aggregation pipeline of `GLODAP2022/convert.py`
(pandas `pd.cut` binning, `groupby(...).mean`, interval midpoints, time
bounds), the missing-month slice insertion of `MODIS-Aqua/convert.py`, the
time-sorted concatenation of `WOA2018/convert.py`, and the time coordinate
of `Boyer/convert.py`.  Real numbers of the scripts are modelled by `ℚ`
(exact arithmetic), missing values (`NaN`) by `Option`.
-/

set_option maxHeartbeats 1000000

namespace IOMB

/-- Grid resolution in degrees (`GRID_RES = 2.0`). -/
def GRID_RES : ℚ := 2

/-- Maximum depth of the target grid (`DEPTH_MAX = 1000.0`). -/
def DEPTH_MAX : ℚ := 1000

/-- `np.linspace(a, b, n)`: `n` evenly spaced points from `a` to `b`
inclusive, point `i` being `a + (b - a) * i / (n - 1)`. -/
def linspace (a b : ℚ) (n : Nat) : List ℚ :=
  (List.range n).map (fun (i : Nat) => a + (b - a) * (i : ℚ) / ((n : ℚ) - 1))

/-- Depth bin edges: `lev = np.linspace(0, DEPTH_MAX, 21)`. -/
def lev : List ℚ := linspace 0 DEPTH_MAX 21

/-- Latitude bin edges:
`lat = np.linspace(-90, 90, int(round(180.0 / GRID_RES)) + 1)`, i.e. 91
points at `GRID_RES = 2.0`. -/
def lat : List ℚ := linspace (-90) 90 91

/-- Longitude bin edges:
`lon = np.linspace(-180, 180, int(round(360.0 / GRID_RES)) + 1)`, i.e. 181
points at `GRID_RES = 2.0`. -/
def lon : List ℚ := linspace (-180) 180 181

/-- One row of the GLODAP data frame after column selection: a month,
position values, and one measured quantity (each quantity column behaves
identically under `groupby(...).mean`, so one generic column suffices;
`none` is a `NaN` entry). -/
structure Obs where
  month : Nat
  depth : ℚ
  latitude : ℚ
  longitude : ℚ
  value : Option ℚ
deriving DecidableEq, Repr

/-- `pd.cut(series, edges)` with the pandas defaults
(`right=True`, `include_lowest=False`): value `v` is assigned to bin `i`
when `edges[i] < v ≤ edges[i+1]`; values outside every such interval get
`NaN` (here `none`).  (For non-increasing `edges`, `pd.cut` raises; that
path is modelled separately by `checkBins`.) -/
def cut : List ℚ → ℚ → Option Nat
  | e₀ :: e₁ :: rest, v =>
    if e₀ < v ∧ v ≤ e₁ then some 0
    else (cut (e₁ :: rest) v).map (· + 1)
  | _, _ => none

/-- The depth pre-filter `df = df[df["depth"] < DEPTH_MAX]`. -/
def filterDepth (dmax : ℚ) (obs : List Obs) : List Obs :=
  obs.filter (fun o => o.depth < dmax)

/-- A grid cell key: (month, depth bin, latitude bin, longitude bin), the
tuple the `groupby` groups on. -/
abbrev GridKey := Nat × Nat × Nat × Nat

/-- The groupby key of one row:
`(df["month"], pd.cut(df["depth"], lev), pd.cut(df["latitude"], lat),
pd.cut(df["longitude"], lon))`; a row whose depth, latitude or longitude
falls in no bin has a `NaN` key component and is dropped by `groupby`. -/
def cellKey (levE latE lonE : List ℚ) (o : Obs) : Option GridKey :=
  match cut levE o.depth, cut latE o.latitude, cut lonE o.longitude with
  | some d, some la, some lo => some (o.month, d, la, lo)
  | _, _, _ => none

/-- The non-missing quantity values of the rows grouped into cell `k`
(after the depth pre-filter). -/
def cellValues (dmax : ℚ) (levE latE lonE : List ℚ) (obs : List Obs)
    (k : GridKey) : List ℚ :=
  (filterDepth dmax obs).filterMap
    (fun o => if cellKey levE latE lonE o = some k then o.value else none)

/-- Mean of a list of values, `NaN` (`none`) when the list is empty — the
behaviour of pandas `mean` on a group whose values are all missing. -/
def meanQ (l : List ℚ) : Option ℚ :=
  if l = [] then none else some (l.sum / (l.length : ℚ))

/-- The aggregated value of cell `k` for the quantity:
`groupby(...).mean(numeric_only=True)` restricted to cell `k`, read back
from the dense grid (`none` both for an absent group and for a group whose
quantity values are all `NaN`). -/
def cellMean (dmax : ℚ) (levE latE lonE : List ℚ) (obs : List Obs)
    (k : GridKey) : Option ℚ :=
  meanQ (cellValues dmax levE latE lonE obs k)

/-- The groupby keys actually produced (one entry per surviving row). -/
def keyedObs (dmax : ℚ) (levE latE lonE : List ℚ) (obs : List Obs) :
    List GridKey :=
  (filterDepth dmax obs).filterMap (cellKey levE latE lonE)

/-- Cell `k` is populated when at least one row is grouped into it. -/
def isPopulated (dmax : ℚ) (levE latE lonE : List ℚ) (obs : List Obs)
    (k : GridKey) : Prop :=
  k ∈ keyedObs dmax levE latE lonE obs

instance (dmax : ℚ) (levE latE lonE : List ℚ) (obs : List Obs)
    (k : GridKey) : Decidable (isPopulated dmax levE latE lonE obs k) :=
  inferInstanceAs (Decidable (k ∈ keyedObs dmax levE latE lonE obs))

/-- The `time` coordinate of the GLODAP output dataset: the distinct
observed months, in increasing order (`df["month"]` is a plain integer
groupby key, so only observed months become index levels in `to_xarray`). -/
def monthCoords (dmax : ℚ) (levE latE lonE : List ℚ) (obs : List Obs) :
    List Nat :=
  ((keyedObs dmax levE latE lonE obs).map (fun k => k.1)).dedup.mergeSort
    (fun a b => a ≤ b)

/-- `xr.where(da != -9999, da, np.nan)` applied entrywise in
`MODIS-Aqua/convert.py`: the sentinel becomes missing. -/
def modisMask (v : ℚ) : Option ℚ := if v = -9999 then none else some v

/-- `das.insert(6, xr.ones_like(das[0]) * -9999)`: the eleven monthly
fields (July absent from the sources) with a sentinel-filled field of the
same shape as the first inserted at index 6.  A field is modelled as its
flattened list of values. -/
def modisAllDas (das : List (List ℚ)) : List (List ℚ) :=
  das.take 6 ++ [List.replicate (das.headD []).length (-9999 : ℚ)] ++
    das.drop 6

/-- The MODIS-Aqua data after insertion and masking: twelve monthly
fields of `Option ℚ` values (`none` is `NaN`). -/
def modisGrid (das : List (List ℚ)) : List (List (Option ℚ)) :=
  (modisAllDas das).map (fun s => s.map modisMask)

/-- Lower time bound of month `t`:
`cftime.DatetimeNoLeap(2000, t, 1)` as a (year, month, day) triple. -/
def timeBndLo (t : Nat) : Nat × Nat × Nat := (2000, t, 1)

/-- Upper time bound of month `t`:
`cftime.DatetimeNoLeap(2000 + (t == 12), 1 if t == 12 else t + 1, 1)`
(the Python bool coerces to 0 or 1). -/
def timeBndHi (t : Nat) : Nat × Nat × Nat :=
  (2000 + (if t = 12 then 1 else 0), if t = 12 then 1 else t + 1, 1)

/-- The fixed monthly climatology months `range(1, 13)`. -/
def climMonths : List Nat := (List.range 12).map (fun m => m + 1)

/-- The `time_bnds` array: one (lower, upper) pair per month. -/
def timeBndsRows (months : List Nat) :
    List ((Nat × Nat × Nat) × (Nat × Nat × Nat)) :=
  months.map (fun t => (timeBndLo t, timeBndHi t))

/-- Month lengths of the `noleap` (365-day) calendar used by
`cftime.DatetimeNoLeap`. -/
def monthDays : List Nat := [31, 28, 31, 30, 31, 30, 31, 31, 30, 31, 30, 31]

/-- Days of the `noleap` year before month `m` (1-based). -/
def daysBeforeMonth (m : Nat) : Nat := (monthDays.take (m - 1)).sum

/-- A `cftime.DatetimeNoLeap(y, m, d)` midnight timestamp as a day count
from 2000-01-01 (exact, in ℚ, as the netCDF encoding to
"days since 1850-01-01" is an affine shift of this). -/
def noLeapQ3 : Nat × Nat × Nat → ℚ
  | (y, m, d) => ((y : ℚ) - 2000) * 365 + (daysBeforeMonth m : ℚ) +
      ((d : ℚ) - 1)

/-- The GLODAP `time` coordinate of month `t`:
`ds["time"] = [cftime.DatetimeNoLeap(2000, t, 15) for t in ds["time"]]`
of `GLODAP2022/convert.py`, as a day count. -/
def glodapTime (t : Nat) : ℚ := noLeapQ3 (2000, t, 15)

/-- The MODIS-Aqua `time` coordinate of month `t`:
`cftime.DatetimeNoLeap(2000, m, 1)` (the concat axis of
`MODIS-Aqua/convert.py`, never reassigned), as a day count. -/
def modisTime (t : Nat) : ℚ := noLeapQ3 (2000, t, 1)

/-- The MODIS-Aqua `depth` coordinate: `expand_dims(dim={"depth": [0.0]})`. -/
def modisDepth : ℚ := 0

/-- The MODIS-Aqua depth bounds row:
`ds["depth_bnds"] = (("depth", "nb"), np.asarray([[0.0, 10.0]]))`. -/
def modisDepthBnds : ℚ × ℚ := (0, 10)

/-- The Boyer `time` coordinate of month `t`:
`ds["time"] = ds["time_bnds"].mean(dim="nb")`, the mean of the two time
bounds. -/
def boyerTime (t : Nat) : ℚ :=
  (noLeapQ3 (timeBndLo t) + noLeapQ3 (timeBndHi t)) / 2

/-- The per-bin bound pairs of a spatial axis:
`np.asarray([edges[:-1], edges[1:]]).T`, row `i` being
`(edges[i], edges[i+1])`. -/
def bndsRows (edges : List ℚ) : List (ℚ × ℚ) :=
  edges.dropLast.zip (edges.drop 1)

/-- The midpoint coordinate the GLODAP script assigns to bin `i`:
`pd.Interval(edges[i], edges[i+1]).mid`, i.e. the average of the two
interval ends. -/
def intervalMid (edges : List ℚ) (i : Nat) : ℚ :=
  (edges.getD i 0 + edges.getD (i + 1) 0) / 2

/-- One WOA2018 monthly input file: its raw `time` value (as read with
`decode_times=False`) and its temperature payload. -/
structure WoaFile where
  time : ℚ
  tAn : List ℚ
deriving DecidableEq, Repr

/-- `dset = sorted(dset, key=lambda ds: ds["time"])` of
`WOA2018/convert.py` (Python `sorted` is a stable sort by the key). -/
def woaSort (dset : List WoaFile) : List WoaFile :=
  dset.mergeSort (fun a b => a.time ≤ b.time)

/-- The time coordinates assigned after concatenation:
`[cf.DatetimeNoLeap(2000, m, 15) for m in range(1, 13)]` as day counts. -/
def woaTimes : List ℚ := climMonths.map (fun m => noLeapQ3 (2000, m, 15))

/-! ### Helper lemmas -/

theorem meanQ_perm {l l' : List ℚ} (h : l.Perm l') : meanQ l = meanQ l' := by
  rcases eq_or_ne l [] with rfl | hne
  · have : l' = [] := h.symm.eq_nil
    subst this; rfl
  · have hne' : l' ≠ [] := by
      intro hl'
      exact hne ((hl' ▸ h).eq_nil)
    rw [meanQ, meanQ, if_neg hne, if_neg hne', h.sum_eq, h.length_eq]

theorem sortedNat_mergeSort (l : List Nat) :
    List.Sorted (· ≤ ·) (l.mergeSort (fun a b => a ≤ b)) := by
  have hp := @List.sorted_mergeSort Nat (fun a b => a ≤ b)
    (fun a b c h1 h2 => decide_eq_true
      (Nat.le_trans (of_decide_eq_true h1) (of_decide_eq_true h2)))
    (fun a b => by
      rcases Nat.le_total a b with h | h <;> simp [h]) l
  exact hp.imp (fun hab => of_decide_eq_true hab)

theorem mergeSortNat_eq_of_perm {l l' : List Nat} (h : l.Perm l') :
    l.mergeSort (fun a b => a ≤ b) = l'.mergeSort (fun a b => a ≤ b) :=
  List.eq_of_perm_of_sorted
    ((List.mergeSort_perm l _).trans (h.trans (List.mergeSort_perm l' _).symm))
    (sortedNat_mergeSort l) (sortedNat_mergeSort l')

theorem pairwiseLt_of_le_nodup {l : List WoaFile}
    (hle : l.Pairwise (fun a b => a.time ≤ b.time))
    (hnd : (l.map WoaFile.time).Nodup) :
    l.Pairwise (fun a b => a.time < b.time) := by
  have hne : l.Pairwise (fun a b => a.time ≠ b.time) := by
    rw [List.Nodup, List.pairwise_map] at hnd
    exact hnd
  exact (hle.and hne).imp (fun h => lt_of_le_of_ne h.1 h.2)

theorem woaSort_sorted (l : List WoaFile) :
    (woaSort l).Pairwise (fun a b => a.time ≤ b.time) := by
  have hp := @List.sorted_mergeSort WoaFile (fun a b => a.time ≤ b.time)
    (fun a b c h1 h2 => decide_eq_true
      (le_trans (of_decide_eq_true h1) (of_decide_eq_true h2)))
    (fun a b => by
      rcases le_total a.time b.time with h | h <;> simp [h]) l
  exact hp.imp (fun hab => of_decide_eq_true hab)

/-! ### Claims -/

/-- Claim C1, counterexample.  With depth edges `[0, 500, 1000]` and the
three observations of the spec scenario, the depth pre-filter
`df[df["depth"] < DEPTH_MAX]` drops the observation at depth 1000
entirely, so cell 1's mean is 20, not 25 as the claim states (cell 0 is
10 as claimed). -/
theorem C1_counterexample :
    cellMean 1000 [0, 500, 1000] lat lon
      [⟨6, 100, 1, 1, some 10⟩, ⟨6, 900, 1, 1, some 20⟩,
        ⟨6, 1000, 1, 1, some 30⟩] (6, 0, 45, 90) = some 10 ∧
    cellMean 1000 [0, 500, 1000] lat lon
      [⟨6, 100, 1, 1, some 10⟩, ⟨6, 900, 1, 1, some 20⟩,
        ⟨6, 1000, 1, 1, some 30⟩] (6, 1, 45, 90) = some 20 ∧
    filterDepth 1000 [⟨6, 1000, 1, 1, some 30⟩] = [] ∧
    ((20 : ℚ) ≠ 25) := by decide!

/-- Claim C1, amended.  An observation exactly at the domain maximum of
the latitude or longitude axis is assigned to the last bin (`pd.cut`
intervals are right-closed), but on the depth axis the pre-filter
`depth < DEPTH_MAX` drops any observation at exactly the depth maximum
before binning; in the concrete scenario cell 0 = 10 and
cell 1 = 20 (only the depth-900 observation contributes). -/
theorem C1_boundary_amended :
    cut lat 90 = some 89 ∧ cut lon 180 = some 179 ∧
    (∀ (o : Obs) (obs : List Obs), o.depth = DEPTH_MAX →
      o ∉ filterDepth DEPTH_MAX obs) ∧
    cellMean 1000 [0, 500, 1000] lat lon
      [⟨6, 100, 1, 1, some 10⟩, ⟨6, 900, 1, 1, some 20⟩,
        ⟨6, 1000, 1, 1, some 30⟩] (6, 1, 45, 90) = some 20 := by
  refine ⟨by decide!, by decide!, ?_, by decide!⟩
  intro o obs h hmem
  have hlt := List.of_mem_filter hmem
  rw [h] at hlt
  exact absurd (of_decide_eq_true hlt) (lt_irrefl _)

/-- Claim C1, witness for the amended theorem: the observation at exactly
`DEPTH_MAX` survives no pre-filter. -/
theorem C1_witness :
    (⟨6, 1000, 1, 1, some 30⟩ : Obs) ∉
      filterDepth DEPTH_MAX [⟨6, 1000, 1, 1, some 30⟩] :=
  C1_boundary_amended.2.2.1 _ _ rfl

/-- Claim C3: the aggregation is invariant under permutation of the
observation sequence — every cell mean, the populated-cell predicate, and
the (data-dependent) time coordinate axis are unchanged.  (The depth,
latitude and longitude axes of the output are the fixed `pd.cut`
categories, independent of the data.) -/
theorem C3_perm_invariant (dmax : ℚ) (levE latE lonE : List ℚ)
    (obs obs' : List Obs) (h : obs.Perm obs') :
    (∀ k, cellMean dmax levE latE lonE obs k =
      cellMean dmax levE latE lonE obs' k) ∧
    (∀ k, isPopulated dmax levE latE lonE obs k ↔
      isPopulated dmax levE latE lonE obs' k) ∧
    monthCoords dmax levE latE lonE obs =
      monthCoords dmax levE latE lonE obs' := by
  have hf : (filterDepth dmax obs).Perm (filterDepth dmax obs') := h.filter _
  refine ⟨fun k => meanQ_perm (hf.filterMap _), fun k => (hf.filterMap _).mem_iff,
    mergeSortNat_eq_of_perm ((hf.filterMap _).map _).dedup⟩

/-- Claim C3, witness: swapping two observations leaves a cell mean
unchanged. -/
theorem C3_witness :
    cellMean 1000 [0, 500, 1000] [-90, 90] [-180, 180]
      [⟨6, 100, 1, 1, some 10⟩, ⟨6, 120, 1, 1, some 30⟩] (6, 0, 0, 0) =
    cellMean 1000 [0, 500, 1000] [-90, 90] [-180, 180]
      [⟨6, 120, 1, 1, some 30⟩, ⟨6, 100, 1, 1, some 10⟩] (6, 0, 0, 0) :=
  (C3_perm_invariant 1000 [0, 500, 1000] [-90, 90] [-180, 180] _ _
    (List.Perm.swap ⟨6, 120, 1, 1, some 30⟩ ⟨6, 100, 1, 1, some 10⟩ [])).1
    (6, 0, 0, 0)

/-- Claim C4: a cell into which no non-missing quantity value falls —
including the empty input and all-`NaN` columns — aggregates to missing,
never to zero, and the aggregation is total (no error). -/
theorem C4_empty_missing (dmax : ℚ) (levE latE lonE : List ℚ)
    (obs : List Obs) (k : GridKey)
    (h : ∀ o ∈ filterDepth dmax obs,
      cellKey levE latE lonE o = some k → o.value = none) :
    cellMean dmax levE latE lonE obs k = none ∧
    cellMean dmax levE latE lonE obs k ≠ some 0 := by
  have hv : cellValues dmax levE latE lonE obs k = [] := by
    rw [cellValues, List.filterMap_eq_nil_iff]
    intro o ho
    by_cases hk : cellKey levE latE lonE o = some k
    · simp [hk, h o ho hk]
    · simp [hk]
  rw [cellMean, hv]
  exact ⟨rfl, by simp [meanQ]⟩

/-- Claim C4, witness: a single all-missing observation in a cell yields
a missing mean on the real GLODAP axes. -/
theorem C4_witness :
    cellMean DEPTH_MAX lev lat lon [⟨6, 100, 1, 1, none⟩] (6, 1, 45, 90) =
      none :=
  (C4_empty_missing DEPTH_MAX lev lat lon [⟨6, 100, 1, 1, none⟩]
    (6, 1, 45, 90) (by decide!)).1

/-- Claim C5, counterexample.  In the GLODAP pipeline a month with zero
observations is simply absent from the output time axis: a single
observation in month 3 produces a time axis of length 1, not 12. -/
theorem C5_counterexample :
    (monthCoords DEPTH_MAX lev lat lon [⟨3, 100, 1, 1, some 5⟩]).length ≠ 12 := by
  decide!

/-- Claim C5, amended.  In `MODIS-Aqua/convert.py` the claim holds: the
eleven monthly fields plus the inserted sentinel slice give a time axis of
length exactly 12, the unobserved month (index 6, July) is a fully missing
slice of the same shape as the others, and every slice keeps that shape.
In `GLODAP2022/convert.py` an unobserved month shrinks the time axis
instead. -/
theorem C5_modis_amended (das : List (List ℚ)) (n : Nat)
    (h11 : das.length = 11) (hn : ∀ s ∈ das, s.length = n) :
    (modisGrid das).length = 12 ∧
    (modisGrid das).getD 6 [] = List.replicate n none ∧
    (∀ s ∈ modisGrid das, s.length = n) := by
  have hhead : (das.headD []).length = n := by
    cases das with
    | nil => simp at h11
    | cons a l => exact hn a (by simp)
  have htake : (das.take 6).length = 6 := by
    rw [List.length_take]
    omega
  refine ⟨?_, ?_, ?_⟩
  · simp only [modisGrid, modisAllDas, List.length_map, List.length_append,
      List.length_take, List.length_drop, List.length_cons, List.length_nil,
      h11]
    omega
  · have hmap : modisGrid das = (das.take 6).map (fun s => s.map modisMask) ++
        ([List.replicate (das.headD []).length (-9999 : ℚ)].map
          (fun s => s.map modisMask) ++
          (das.drop 6).map (fun s => s.map modisMask)) := by
      rw [modisGrid, modisAllDas, List.map_append, List.map_append,
        List.append_assoc]
    rw [hmap, List.getD_eq_getElem?_getD,
      List.getElem?_append_right (by simp [htake])]
    simp only [List.headD_eq_head?_getD] at hhead
    simp [htake, h11, List.singleton_append, modisMask, hhead]
  · intro s hs
    rcases List.mem_map.mp hs with ⟨t, ht, rfl⟩
    rw [List.length_map]
    rcases List.mem_append.mp ht with ht1 | ht2
    · rcases List.mem_append.mp ht1 with ht3 | ht4
      · exact hn t (List.mem_of_mem_take ht3)
      · rw [List.mem_singleton.mp ht4, List.length_replicate]
        exact hhead
    · exact hn t (List.mem_of_mem_drop ht2)

/-- Claim C5, witness for the amended theorem: eleven one-point monthly
fields give a twelve-slice grid. -/
theorem C5_witness :
    (modisGrid (List.replicate 11 [(1 : ℚ)])).length = 12 :=
  (C5_modis_amended (List.replicate 11 [(1 : ℚ)]) 1 (by decide!)
    (by decide!)).1

/-- Claim C6: the generated time bounds pair lower bound (2000, t, 1)
with upper bound (2000, t+1, 1) for months 1..11, while December's upper
bound wraps to (2001, 1, 1). -/
theorem C6_time_bounds :
    (∀ t, 1 ≤ t → t ≤ 11 →
      timeBndLo t = (2000, t, 1) ∧ timeBndHi t = (2000, t + 1, 1)) ∧
    timeBndLo 12 = (2000, 12, 1) ∧ timeBndHi 12 = (2001, 1, 1) := by
  refine ⟨fun t h1 h11 => ⟨rfl, ?_⟩, rfl, by decide⟩
  have ht : t ≠ 12 := by omega
  simp [timeBndHi, ht]

/-- Claim C6, witness: the bounds of March. -/
theorem C6_witness : timeBndHi 3 = (2000, 4, 1) :=
  (C6_time_bounds.1 3 (by decide) (by decide)).2

/-- Claim C7, counterexample.  The GLODAP time coordinate is day 15 of
the month (day count 14 for January), while the arithmetic mean of
January's bounds (days 0 and 31 in the noleap calendar) is 15.5 — the
time axis midpoint property fails. -/
theorem C7_counterexample :
    glodapTime 1 ≠ (noLeapQ3 (timeBndLo 1) + noLeapQ3 (timeBndHi 1)) / 2 := by
  decide!

/-- Claim C7, amended.  In `GLODAP2022/convert.py` the coordinate of
spatial bin `i` is `pd.Interval(edges[i], edges[i+1]).mid`, which equals
the arithmetic mean of that bin's bounds pair `(edges[i], edges[i+1])`,
and in `Boyer/convert.py` the time coordinate is defined as the mean of
the time bounds; but the GLODAP time coordinate (day 15) is not the mean
of its month's bounds, the MODIS-Aqua time coordinate (day 1) is not
either, and the MODIS-Aqua depth coordinate (0.0, bounds (0, 10)) is not
the mean of its bounds. -/
theorem C7_mid_amended :
    (∀ (edges : List ℚ) (i : Nat), i + 1 < edges.length →
      (bndsRows edges).getD i (0, 0) =
        (edges.getD i 0, edges.getD (i + 1) 0) ∧
      intervalMid edges i =
        (((bndsRows edges).getD i (0, 0)).1 +
          ((bndsRows edges).getD i (0, 0)).2) / 2) ∧
    (∀ t, boyerTime t =
      (noLeapQ3 (timeBndLo t) + noLeapQ3 (timeBndHi t)) / 2) ∧
    modisTime 1 ≠ (noLeapQ3 (timeBndLo 1) + noLeapQ3 (timeBndHi 1)) / 2 ∧
    modisDepth ≠ (modisDepthBnds.1 + modisDepthBnds.2) / 2 := by
  refine ⟨fun edges i h => ?_, fun t => rfl, by decide!, by decide!⟩
  have hdl : i < edges.dropLast.length := by
    rw [List.length_dropLast]
    omega
  have hdr : i < (edges.drop 1).length := by
    rw [List.length_drop]
    omega
  have hzip : i < (edges.dropLast.zip (edges.drop 1)).length := by
    rw [List.length_zip]
    omega
  have h1 : (bndsRows edges).getD i (0, 0) =
      (edges.getD i 0, edges.getD (i + 1) 0) := by
    rw [bndsRows, List.getD_eq_getElem?_getD, List.getElem?_eq_getElem hzip,
      List.getElem_zip, List.getElem_dropLast, List.getElem_drop]
    rw [List.getD_eq_getElem?_getD, List.getElem?_eq_getElem (by omega),
      List.getD_eq_getElem?_getD, List.getElem?_eq_getElem (by omega)]
    simp [Nat.add_comm 1 i]
  exact ⟨h1, by rw [h1, intervalMid]⟩

/-- Claim C7, witness for the amended theorem: the first depth bin of the
GLODAP grid has bounds (0, 50) and midpoint coordinate 25, their mean. -/
theorem C7_witness :
    intervalMid lev 0 =
      (((bndsRows lev).getD 0 (0, 0)).1 + ((bndsRows lev).getD 0 (0, 0)).2) / 2 :=
  (C7_mid_amended.1 lev 0 (by decide!)).2

/-- Claim C10: with the twelve monthly WOA input files carrying pairwise
distinct raw time values, the sorted concatenation is independent of the
order in which the files are listed, and the assigned output time
coordinates are the twelve months in strictly increasing order. -/
theorem C10_sort_invariant (l l' : List WoaFile) (hp : l.Perm l')
    (hnd : (l.map WoaFile.time).Nodup) :
    woaSort l = woaSort l' ∧
    List.Pairwise (fun a b : ℚ => a < b) woaTimes := by
  refine ⟨?_, by decide!⟩
  haveI : IsAntisymm WoaFile (fun a b => a.time < b.time) :=
    ⟨fun a b h1 h2 => absurd (lt_trans h1 h2) (lt_irrefl _)⟩
  have hperm : (woaSort l).Perm (woaSort l') :=
    (List.mergeSort_perm l _).trans (hp.trans (List.mergeSort_perm l' _).symm)
  have hnd1 : ((woaSort l).map WoaFile.time).Nodup :=
    (((List.mergeSort_perm l _).map _).nodup_iff).mpr hnd
  have hnd2 : ((woaSort l').map WoaFile.time).Nodup :=
    (((List.mergeSort_perm l' _).map _).nodup_iff).mpr
      (((hp.map _).nodup_iff).mp hnd)
  exact List.eq_of_perm_of_sorted hperm
    (pairwiseLt_of_le_nodup (woaSort_sorted l) hnd1)
    (pairwiseLt_of_le_nodup (woaSort_sorted l') hnd2)

/-- Claim C10, witness: swapping two input files with distinct times
leaves the sorted result unchanged. -/
theorem C10_witness :
    woaSort [⟨2, [100]⟩, ⟨1, [200]⟩] = woaSort [⟨1, [200]⟩, ⟨2, [100]⟩] :=
  (C10_sort_invariant _ _
    (List.Perm.swap ⟨1, [200]⟩ ⟨2, [100]⟩ []) (by decide!)).1

end IOMB
